import Mathlib

/-!
Shallow embedding of the input-validation layer of the portfolio-trajectory
backend (src/backend/portfolio_trajectory/schemas/input.py together with the
shared base model in schemas/base.py).  The pydantic models are embedded as
plain Lean structures; each pydantic validation stage (per-field before
validators, type/constraint checks, and mode-after model validators) becomes an
explicit function.  Decimal values are represented by Rat, calendar dates by a
year/month/day triple ordered lexicographically, and validation failures by an
explicit error inductive mirroring the error taxonomy of the code.
-/

/-! ## ASCII string normalization (pydantic.alias_generators) -/

/-- One pass of the regex sub on the pattern of an uppercase run followed by an
uppercase-lowercase pair: an underscore is inserted between the last two
uppercase letters of the run (pydantic alias_generators.to_snake, first sub). -/
def snakeSub1 : List Char → List Char
  | a :: b :: c :: rest =>
    if a.isUpper && b.isUpper && c.isLower then a :: '_' :: snakeSub1 (b :: c :: rest)
    else a :: snakeSub1 (b :: c :: rest)
  | l => l

/-- One pass of a regex sub inserting an underscore between any adjacent pair
of characters where the first satisfies p and the second satisfies q
(the lower-upper, digit-upper and lower-digit subs of to_snake). -/
def snakePairSub (p q : Char → Bool) : List Char → List Char
  | a :: b :: rest =>
    if p a && q b then a :: '_' :: snakePairSub p q (b :: rest)
    else a :: snakePairSub p q (b :: rest)
  | l => l

/-- Embedding of pydantic.alias_generators.to_snake: four underscore-inserting
regex passes, hyphen replacement, then ASCII lowercasing. -/
def to_snake (s : String) : String :=
  let l1 := snakeSub1 s.data
  let l2 := snakePairSub Char.isLower Char.isUpper l1
  let l3 := snakePairSub Char.isDigit Char.isUpper l2
  let l4 := snakePairSub Char.isLower Char.isDigit l3
  let l5 := l4.map (fun c => if c = '-' then '_' else c)
  String.mk (l5.map Char.toLower)

/-- Python str.title restricted to ASCII: a letter is uppercased when the
previous character is not a letter and lowercased otherwise.  The boolean
argument records whether the previous character was a letter. -/
def titleChars : Bool → List Char → List Char
  | _, [] => []
  | prevAlpha, c :: rest =>
    (if c.isAlpha then (if prevAlpha then c.toLower else c.toUpper) else c)
      :: titleChars c.isAlpha rest

/-- The underscore-removing regex sub of pydantic to_pascal: drop an
underscore whose predecessor is alphanumeric and whose successor is an
uppercase letter or a digit. -/
def pascalStrip : List Char → List Char
  | a :: '_' :: c :: rest =>
    if (a.isAlpha || a.isDigit) && (c.isUpper || c.isDigit) then a :: pascalStrip (c :: rest)
    else a :: pascalStrip ('_' :: c :: rest)
  | a :: rest => a :: pascalStrip rest
  | [] => []

/-- Embedding of pydantic.alias_generators.to_pascal. -/
def to_pascal (s : String) : String :=
  String.mk (pascalStrip (titleChars false s.data))

/-- Lowercase the first uppercase letter following any leading underscores
(the final regex sub of pydantic to_camel). -/
def lowerFirstUpper : List Char → List Char
  | '_' :: rest => '_' :: lowerFirstUpper rest
  | c :: rest => (if c.isUpper then c.toLower else c) :: rest
  | [] => []

/-- Embedding of pydantic.alias_generators.to_camel, the alias generator
configured on CamelModel. -/
def to_camel (s : String) : String :=
  String.mk (lowerFirstUpper (to_pascal s).data)

/-- ASCII lowercasing of a whole string, used to express case-insensitive
comparison of tokens in the claims. -/
def lowerStr (s : String) : String :=
  String.mk (s.data.map Char.toLower)

/-! ## Error taxonomy

The code raises ValueError with structured messages; pydantic aggregates them
into a list of errors, each located at a field (reported under its public
camelCase alias).  The spec groups these into a taxonomy; the embedding keeps
one constructor per kind, with the payload the corresponding message carries:
missingRequired and forbiddenPresent (the two halves of the
VariantConstraintViolation class) carry the discriminator value and the
camelCased field-name list of the message. -/

inductive VError : Type
  | rangeViolation (field : String)
  | typeCoercionError (field : String)
  | unknownVariant (field : String) (token : String)
  | missingRequired (discr : String) (fields : List String)
  | forbiddenPresent (discr : String) (fields : List String)
  | dateRangeInverted
  | negativeBalance
  | percentileOutOfRange
  | duplicatePercentile
  | balanceCountMismatch
  | inField (path : String) (e : VError)
deriving DecidableEq, Repr

/-- A calendar date (datetime.date): year, month, day compared
lexicographically. -/
structure PyDate where
  year : Int
  month : Int
  day : Int
deriving DecidableEq, Repr

/-- Strict order on dates, lexicographic on (year, month, day). -/
def PyDate.ltB (a b : PyDate) : Bool :=
  if a.year ≠ b.year then decide (a.year < b.year)
  else if a.month ≠ b.month then decide (a.month < b.month)
  else decide (a.day < b.day)

/-! ## Enums (input.py) -/

/-- Enum Strategy: allowed cash flow strategies.  The members are str-enum
members whose values are the strings returned by Strategy.value. -/
inductive Strategy : Type
  | zero
  | fixed
  | fixed_lifecycle
deriving DecidableEq, Repr

/-- The string value of a Strategy member. -/
def Strategy.value : Strategy → String
  | .zero => "zero"
  | .fixed => "fixed"
  | .fixed_lifecycle => "fixed_lifecycle"

/-- Coercion of a string to a Strategy member by exact value lookup, as
pydantic coerces a str onto a str-enum field. -/
def Strategy.ofValue (s : String) : Option Strategy :=
  if s = "zero" then some .zero
  else if s = "fixed" then some .fixed
  else if s = "fixed_lifecycle" then some .fixed_lifecycle
  else none

/-- Enum ModelType: allowed return-model types. -/
inductive ModelType : Type
  | statistical
  | parametric
  | bootstrap
deriving DecidableEq, Repr

/-- The string value of a ModelType member. -/
def ModelType.value : ModelType → String
  | .statistical => "statistical"
  | .parametric => "parametric"
  | .bootstrap => "bootstrap"

/-- Coercion of a string to a ModelType member by exact value lookup. -/
def ModelType.ofValue (s : String) : Option ModelType :=
  if s = "statistical" then some .statistical
  else if s = "parametric" then some .parametric
  else if s = "bootstrap" then some .bootstrap
  else none

/-! ## CashFlowInput -/

/-- The already-typed raw payload of CashFlowInput: the strategy discriminator
as the supplied string token, the other fields as already-coerced optional
values (absent fields are none, matching the None defaults of the model). -/
structure CashFlowRaw where
  strategy : String
  contribution : Option Rat
  withdrawal : Option Rat
  months_to_retirement : Option Int
deriving DecidableEq, Repr

/-- A validated CashFlowInput record. -/
structure CashFlowInput where
  strategy : Strategy
  contribution : Option Rat
  withdrawal : Option Rat
  months_to_retirement : Option Int
deriving DecidableEq, Repr

/-- getattr(self, field) is None, for the three optional fields of
CashFlowInput (any other name counts as absent). -/
def CashFlowInput.fieldIsNone (c : CashFlowInput) : String → Bool
  | "contribution" => c.contribution.isNone
  | "withdrawal" => c.withdrawal.isNone
  | "months_to_retirement" => c.months_to_retirement.isNone
  | _ => true

/-- The required-field table of CashFlowInput.validate_fields. -/
def cashFlowRequired : Strategy → List String
  | .zero => []
  | .fixed => ["contribution"]
  | .fixed_lifecycle => ["contribution", "withdrawal", "months_to_retirement"]

/-- The unused-field table of CashFlowInput.validate_fields. -/
def cashFlowUnused : Strategy → List String
  | .zero => ["contribution", "withdrawal", "months_to_retirement"]
  | .fixed => ["withdrawal", "months_to_retirement"]
  | .fixed_lifecycle => []

/-- The mode-after model validator CashFlowInput.validate_fields: raise on the
missing required fields first (all named together, camelCased, with the
camelCased discriminator), only then on the present unused fields. -/
def cashFlowModelValidator (c : CashFlowInput) : Except VError CashFlowInput :=
  match (cashFlowRequired c.strategy).filter c.fieldIsNone with
  | [] =>
    match (cashFlowUnused c.strategy).filter (fun f => !(c.fieldIsNone f)) with
    | [] => .ok c
    | extra => .error (.forbiddenPresent (to_camel c.strategy.value) (extra.map to_camel))
  | missing => .error (.missingRequired (to_camel c.strategy.value) (missing.map to_camel))

/-- The per-field errors of CashFlowInput: the strategy token is snake_cased by
the before-validator normalize_strings and must coerce onto the Strategy enum,
and months_to_retirement carries the constraint ge=0.  Errors are reported in
field declaration order, located at the public camelCase alias. -/
def cashFlowFieldErrors (raw : CashFlowRaw) : List VError :=
  (match Strategy.ofValue (to_snake raw.strategy) with
   | some _ => []
   | none => [.unknownVariant "strategy" (to_snake raw.strategy)]) ++
  (match raw.months_to_retirement with
   | some m => if m < 0 then [.rangeViolation "monthsToRetirement"] else []
   | none => [])

/-- Full validation of a CashFlowInput payload: field validation first
(aggregating all field errors); the mode-after model validator runs only when
every field validated. -/
def validateCashFlow (raw : CashFlowRaw) : Except (List VError) CashFlowInput :=
  match Strategy.ofValue (to_snake raw.strategy) with
  | none => .error (cashFlowFieldErrors raw)
  | some s =>
    if cashFlowFieldErrors raw = [] then
      (cashFlowModelValidator
        ⟨s, raw.contribution, raw.withdrawal, raw.months_to_retirement⟩).mapError (fun e => [e])
    else .error (cashFlowFieldErrors raw)

/-! ## ReturnModelInput -/

/-- The already-typed raw payload of ReturnModelInput: the model_type
discriminator as the supplied string token, returns_source as the supplied
string token (the union type ReturnsSource or str or None accepts every
string: the two str-enum members are exactly the strings global and usa),
and the remaining fields as already-coerced optional values. -/
structure ReturnModelRaw where
  model_type : String
  nominal_expected_return : Option Rat
  nominal_standard_deviation : Option Rat
  real_expected_return : Option Rat
  real_standard_deviation : Option Rat
  returns_source : Option String
  start_date : Option PyDate
  end_date : Option PyDate
  block_size : Option Int
  circular : Option Bool
deriving DecidableEq, Repr

/-- A validated ReturnModelInput record. -/
structure ReturnModelInput where
  model_type : ModelType
  nominal_expected_return : Option Rat
  nominal_standard_deviation : Option Rat
  real_expected_return : Option Rat
  real_standard_deviation : Option Rat
  returns_source : Option String
  start_date : Option PyDate
  end_date : Option PyDate
  block_size : Option Int
  circular : Option Bool
deriving DecidableEq, Repr

/-- getattr(self, field) is None for the optional fields of ReturnModelInput
(any other name counts as absent). -/
def ReturnModelInput.fieldIsNone (m : ReturnModelInput) : String → Bool
  | "nominal_expected_return" => m.nominal_expected_return.isNone
  | "nominal_standard_deviation" => m.nominal_standard_deviation.isNone
  | "real_expected_return" => m.real_expected_return.isNone
  | "real_standard_deviation" => m.real_standard_deviation.isNone
  | "returns_source" => m.returns_source.isNone
  | "start_date" => m.start_date.isNone
  | "end_date" => m.end_date.isNone
  | "block_size" => m.block_size.isNone
  | "circular" => m.circular.isNone
  | _ => true

/-- The required-field table of ReturnModelInput.validate_fields. -/
def returnModelRequired : ModelType → List String
  | .parametric =>
    ["nominal_expected_return", "nominal_standard_deviation",
     "real_expected_return", "real_standard_deviation"]
  | .statistical => ["returns_source"]
  | .bootstrap => ["returns_source"]

/-- The unused-field table of ReturnModelInput.validate_fields. -/
def returnModelUnused : ModelType → List String
  | .parametric =>
    ["returns_source", "start_date", "end_date", "block_size", "circular"]
  | .statistical =>
    ["nominal_expected_return", "nominal_standard_deviation",
     "real_expected_return", "real_standard_deviation", "block_size", "circular"]
  | .bootstrap =>
    ["nominal_expected_return", "nominal_standard_deviation",
     "real_expected_return", "real_standard_deviation"]

/-- The in-place default assignment of the bootstrap branch of
ReturnModelInput.validate_fields: block_size becomes 1 and circular becomes
true when absent, before the required and unused checks run. -/
def applyBootstrapDefaults (m : ReturnModelInput) : ReturnModelInput :=
  if m.model_type = ModelType.bootstrap then
    { m with block_size := some (m.block_size.getD 1),
             circular := some (m.circular.getD true) }
  else m

/-- Both dates present and start_date strictly after end_date. -/
def datesInverted (m : ReturnModelInput) : Bool :=
  match m.start_date, m.end_date with
  | some s, some e => PyDate.ltB e s
  | _, _ => false

/-- The mode-after model validator ReturnModelInput.validate_fields: bootstrap
defaults first, then the missing-required check (raising one error naming all
missing fields, camelCased, with the discriminator value), then the
present-unused check, then the date-range check.  The returned record carries
the injected defaults. -/
def returnModelModelValidator (m0 : ReturnModelInput) : Except VError ReturnModelInput :=
  let m := applyBootstrapDefaults m0
  match (returnModelRequired m.model_type).filter m.fieldIsNone with
  | [] =>
    match (returnModelUnused m.model_type).filter (fun f => !(m.fieldIsNone f)) with
    | [] => if datesInverted m then .error .dateRangeInverted else .ok m
    | extra => .error (.forbiddenPresent m.model_type.value (extra.map to_camel))
  | missing => .error (.missingRequired m.model_type.value (missing.map to_camel))

/-- The per-field errors of ReturnModelInput: the model_type token is
snake_cased by normalize_strings and must coerce onto the ModelType enum, the
two standard-deviation fields carry ge=0 and block_size carries ge=1.
returns_source never produces a field error.  Errors are reported in field
declaration order, located at the public camelCase alias. -/
def returnModelFieldErrors (raw : ReturnModelRaw) : List VError :=
  (match ModelType.ofValue (to_snake raw.model_type) with
   | some _ => []
   | none => [.unknownVariant "modelType" (to_snake raw.model_type)]) ++
  (match raw.nominal_standard_deviation with
   | some d => if d < 0 then [.rangeViolation "nominalStandardDeviation"] else []
   | none => []) ++
  (match raw.real_standard_deviation with
   | some d => if d < 0 then [.rangeViolation "realStandardDeviation"] else []
   | none => []) ++
  (match raw.block_size with
   | some b => if b < 1 then [.rangeViolation "blockSize"] else []
   | none => [])

/-- The typed record built from a raw payload once the discriminator coerced:
the before-validator normalize_strings snake_cases returns_source, and the
union type then keeps it as the enum member or the free-form string. -/
def ReturnModelRaw.toInput (raw : ReturnModelRaw) (mt : ModelType) : ReturnModelInput :=
  ⟨mt, raw.nominal_expected_return, raw.nominal_standard_deviation,
   raw.real_expected_return, raw.real_standard_deviation,
   raw.returns_source.map to_snake, raw.start_date, raw.end_date,
   raw.block_size, raw.circular⟩

/-- Full validation of a ReturnModelInput payload: field validation first
(aggregating all field errors); the mode-after model validator runs only when
every field validated. -/
def validateReturnModel (raw : ReturnModelRaw) : Except (List VError) ReturnModelInput :=
  match ModelType.ofValue (to_snake raw.model_type) with
  | none => .error (returnModelFieldErrors raw)
  | some mt =>
    if returnModelFieldErrors raw = [] then
      (returnModelModelValidator (raw.toInput mt)).mapError (fun e => [e])
    else .error (returnModelFieldErrors raw)

/-! ## SimulationConfig -/

/-- Scalar bounds of the top-level config (input.py). -/
def MIN_STEPS : Int := 12

/-- Upper bound on num_steps. -/
def MAX_STEPS : Int := 12 * 100

/-- Lower bound on num_paths. -/
def MIN_PATHS : Int := 100

/-- Upper bound on num_paths. -/
def MAX_PATHS : Int := 1000000

/-- The field validator SimulationConfig.validate_initial_balances: every
element of a list (or the scalar) must be at least 0. -/
def validateInitialBalances : Rat ⊕ List Rat → Except VError (Rat ⊕ List Rat)
  | .inl v => if v < 0 then .error .negativeBalance else .ok (.inl v)
  | .inr l =>
    if l.all (fun v => decide (0 ≤ v)) then .ok (.inr l) else .error .negativeBalance

/-- len(set(value)) differs from len(value): some element occurs earlier in
the list again. -/
def hasDuplicate : List Int → Bool
  | [] => false
  | x :: xs => xs.any (fun y => decide (y = x)) || hasDuplicate xs

/-- The field validator SimulationConfig.validate_percentiles: every element
strictly between 0 and 100, no duplicates, and the returned (stored) value is
the ascending-sorted list. -/
def validatePercentiles (value : List Int) : Except VError (List Int) :=
  if value.all (fun p => decide (0 < p) && decide (p < 100)) then
    if hasDuplicate value then .error .duplicatePercentile
    else .ok (List.insertionSort (· ≤ ·) value)
  else .error .percentileOutOfRange

/-- The already-typed raw payload of SimulationConfig: scalars coerced,
initial_balances either a scalar or a list, and the two nested payloads still
raw. -/
structure SimulationRaw where
  num_steps : Int
  num_paths : Int
  initial_balances : Rat ⊕ List Rat
  percentiles : List Int
  return_model : ReturnModelRaw
  cash_flow_strategy : CashFlowRaw
deriving DecidableEq, Repr

/-- A validated SimulationConfig. -/
structure SimulationConfig where
  num_steps : Int
  num_paths : Int
  initial_balances : Rat ⊕ List Rat
  percentiles : List Int
  return_model : ReturnModelInput
  cash_flow_strategy : CashFlowInput
deriving DecidableEq, Repr

/-- The single error of a fallible field validator, as pydantic collects it. -/
def exceptErr {α : Type} : Except VError α → List VError
  | .ok _ => []
  | .error e => [e]

/-- The errors of a nested model, tagged with the nesting path as pydantic
tags error locations. -/
def nestedErrs {α : Type} (tag : String) : Except (List VError) α → List VError
  | .ok _ => []
  | .error es => es.map (VError.inField tag)

/-- All field-level errors of SimulationConfig in field declaration order:
the two range-constrained scalars (reported at their public camelCase alias),
the two field validators, and the two nested models. -/
def simFieldErrors (raw : SimulationRaw) : List VError :=
  (if raw.num_steps < MIN_STEPS ∨ raw.num_steps > MAX_STEPS
   then [VError.rangeViolation "numSteps"] else []) ++
  (if raw.num_paths < MIN_PATHS ∨ raw.num_paths > MAX_PATHS
   then [VError.rangeViolation "numPaths"] else []) ++
  exceptErr (validateInitialBalances raw.initial_balances) ++
  exceptErr (validatePercentiles raw.percentiles) ++
  nestedErrs "returnModel" (validateReturnModel raw.return_model) ++
  nestedErrs "cashFlowStrategy" (validateCashFlow raw.cash_flow_strategy)

/-- Full validation of a SimulationConfig payload: every field-level check is
evaluated and the failures aggregated; the mode-after model validator
validate_cross_fields (list-shaped initial_balances must have length
num_paths) runs only when every field validated. -/
def validateSimulationConfig (raw : SimulationRaw) : Except (List VError) SimulationConfig :=
  match validatePercentiles raw.percentiles, validateReturnModel raw.return_model,
        validateCashFlow raw.cash_flow_strategy with
  | .ok ps, .ok rm, .ok cf =>
    if simFieldErrors raw = [] then
      match raw.initial_balances with
      | .inr l =>
        if (l.length : Int) ≠ raw.num_paths then .error [.balanceCountMismatch]
        else .ok ⟨raw.num_steps, raw.num_paths, raw.initial_balances, ps, rm, cf⟩
      | .inl _ => .ok ⟨raw.num_steps, raw.num_paths, raw.initial_balances, ps, rm, cf⟩
    else .error (simFieldErrors raw)
  | _, _, _ => .error (simFieldErrors raw)

/-! ## The JSON-level coercion layer (pydantic lax mode)

For the claims about the public interface the payload values arrive as JSON
scalars; pydantic in lax mode coerces them onto the declared field types. -/

/-- A JSON scalar value. -/
inductive JVal : Type
  | jnum (q : Rat)
  | jstr (s : String)
  | jbool (b : Bool)
deriving DecidableEq, Repr

/-- Accumulating decimal-digit parser: fails at the first non-digit. -/
def natOfDigits : Nat → List Char → Option Nat
  | acc, [] => some acc
  | acc, c :: cs =>
    if c.isDigit then natOfDigits (acc * 10 + (c.toNat - 48)) cs else none

/-- Parse a decimal numeric string (optional sign, integer digits, optional
dot and fraction digits) into an exact rational, as the lax string-to-number
coercion parses it. -/
def parseDecimal? (s : String) : Option Rat :=
  let signed : Bool × List Char :=
    match s.data with
    | '-' :: r => (true, r)
    | '+' :: r => (false, r)
    | r => (false, r)
  let intPart := signed.2.takeWhile (fun c => c != '.')
  let rest := signed.2.dropWhile (fun c => c != '.')
  match rest with
  | [] =>
    match natOfDigits 0 intPart with
    | some n =>
      if intPart.isEmpty then none
      else some (mkRat (if signed.1 then -(n : Int) else (n : Int)) 1)
    | none => none
  | _ :: frac =>
    match natOfDigits 0 intPart, natOfDigits 0 frac with
    | some i, some f =>
      if intPart.isEmpty && frac.isEmpty then none
      else
        let num : Int := ((i * 10 ^ frac.length + f : Nat) : Int)
        some (mkRat (if signed.1 then -num else num) (10 ^ frac.length))
    | _, _ => none

/-- Lax coercion of a JSON value onto a float field: numbers pass, numeric
strings are parsed, anything else is a type error at the field. -/
def coerceFloat (field : String) : JVal → Except VError Rat
  | .jnum q => .ok q
  | .jstr s =>
    match parseDecimal? s with
    | some q => .ok q
    | none => .error (.typeCoercionError field)
  | .jbool _ => .error (.typeCoercionError field)

/-- Lax coercion of a JSON value onto an int field: integral numbers and
integral numeric strings pass (so the decimal string 17.0 becomes 17),
fractional values fail. -/
def coerceInt (field : String) : JVal → Except VError Int
  | .jnum q => if q.den = 1 then .ok q.num else .error (.typeCoercionError field)
  | .jstr s =>
    match parseDecimal? s with
    | some q => if q.den = 1 then .ok q.num else .error (.typeCoercionError field)
    | none => .error (.typeCoercionError field)
  | .jbool _ => .error (.typeCoercionError field)

/-- Lax coercion of a JSON value onto a bool field: booleans pass, the
recognized truthy and falsy strings (case-insensitive) pass, the numbers 0 and
1 pass. -/
def coerceBool (field : String) : JVal → Except VError Bool
  | .jbool b => .ok b
  | .jstr s =>
    let t := lowerStr s
    if t = "true" ∨ t = "t" ∨ t = "yes" ∨ t = "y" ∨ t = "on" ∨ t = "1" then .ok true
    else if t = "false" ∨ t = "f" ∨ t = "no" ∨ t = "n" ∨ t = "off" ∨ t = "0" then .ok false
    else .error (.typeCoercionError field)
  | .jnum q =>
    if q = 1 then .ok true
    else if q = 0 then .ok false
    else .error (.typeCoercionError field)

/-- Lax coercion of an optional float field (absent stays absent). -/
def coerceOptFloat (field : String) : Option JVal → Except VError (Option Rat)
  | none => .ok none
  | some v => match coerceFloat field v with
    | .ok q => .ok (some q)
    | .error e => .error e

/-- Lax coercion of an optional int field. -/
def coerceOptInt (field : String) : Option JVal → Except VError (Option Int)
  | none => .ok none
  | some v => match coerceInt field v with
    | .ok n => .ok (some n)
    | .error e => .error e

/-- Lax coercion of an optional bool field. -/
def coerceOptBool (field : String) : Option JVal → Except VError (Option Bool)
  | none => .ok none
  | some v => match coerceBool field v with
    | .ok b => .ok (some b)
    | .error e => .error e

/-- Lax coercion of an optional string-valued field: only strings pass. -/
def coerceOptStr (field : String) : Option JVal → Except VError (Option String)
  | none => .ok none
  | some (.jstr s) => .ok (some s)
  | some _ => .error (.typeCoercionError field)

/-- The JSON-level payload of ReturnModelInput.  The two date fields are kept
as already-parsed calendar dates: no claim exercises the ISO date string
parser, which this embedding leaves out of scope. -/
structure ReturnModelJson where
  model_type : JVal
  nominal_expected_return : Option JVal
  nominal_standard_deviation : Option JVal
  real_expected_return : Option JVal
  real_standard_deviation : Option JVal
  returns_source : Option JVal
  start_date : Option PyDate
  end_date : Option PyDate
  block_size : Option JVal
  circular : Option JVal
deriving DecidableEq, Repr

/-- Coerce every JSON field of a ReturnModelInput payload onto its declared
type, aggregating the coercion errors in field declaration order. -/
def parseReturnModelJson (j : ReturnModelJson) : Except (List VError) ReturnModelRaw :=
  let mtR : Except VError String :=
    match j.model_type with
    | .jstr s => .ok s
    | _ => .error (.typeCoercionError "modelType")
  let nerR := coerceOptFloat "nominalExpectedReturn" j.nominal_expected_return
  let nsdR := coerceOptFloat "nominalStandardDeviation" j.nominal_standard_deviation
  let rerR := coerceOptFloat "realExpectedReturn" j.real_expected_return
  let rsdR := coerceOptFloat "realStandardDeviation" j.real_standard_deviation
  let srcR := coerceOptStr "returnsSource" j.returns_source
  let bsR := coerceOptInt "blockSize" j.block_size
  let ciR := coerceOptBool "circular" j.circular
  match mtR, nerR, nsdR, rerR, rsdR, srcR, bsR, ciR with
  | .ok mt, .ok ner, .ok nsd, .ok rer, .ok rsd, .ok src, .ok bs, .ok ci =>
    .ok ⟨mt, ner, nsd, rer, rsd, src, j.start_date, j.end_date, bs, ci⟩
  | _, _, _, _, _, _, _, _ =>
    .error (exceptErr mtR ++ exceptErr nerR ++ exceptErr nsdR ++ exceptErr rerR ++
            exceptErr rsdR ++ exceptErr srcR ++ exceptErr bsR ++ exceptErr ciR)

/-- Validation of a ReturnModelInput payload from the JSON level: lax per-field
coercion, then the typed validation pipeline. -/
def validateReturnModelJson (j : ReturnModelJson) : Except (List VError) ReturnModelInput :=
  match parseReturnModelJson j with
  | .error es => .error es
  | .ok raw => validateReturnModel raw

/-! ## CamelModel (schemas/base.py) -/

/-- The pydantic model configuration switches relevant to the embedded models.
A pydantic ConfigDict leaves every key it does not set at the pydantic
default, which is false for frozen and validate_assignment. -/
structure PydanticConfig where
  usesCamelAliasGenerator : Bool
  populate_by_name : Bool
  frozen : Bool
  validate_assignment : Bool
deriving DecidableEq, Repr

/-- The configuration of a model with no ConfigDict at all: everything off. -/
def defaultPydanticConfig : PydanticConfig := ⟨false, false, false, false⟩

/-- The model_config of CamelModel (base.py): alias_generator = to_camel and
populate_by_name = True are set; frozen and validate_assignment are not
mentioned and therefore keep the pydantic defaults.  SimulationConfig,
ReturnModelInput and CashFlowInput all inherit this configuration. -/
def camelModelConfig : PydanticConfig :=
  { defaultPydanticConfig with usesCamelAliasGenerator := true, populate_by_name := true }

/-- First value stored under a key in a JSON object, viewed as a key-value
list. -/
def lookupKey (payload : List (String × JVal)) (k : String) : Option JVal :=
  match payload with
  | [] => none
  | (k0, v) :: rest => if k0 = k then some v else lookupKey rest k

/-- How pydantic under the CamelModel configuration extracts one field from a
payload: the camelCase validation alias is consulted first, and because
populate_by_name is on, the field name itself is accepted as well. -/
def extractField (payload : List (String × JVal)) (fname : String) : Option JVal :=
  match lookupKey payload (to_camel fname) with
  | some v => some v
  | none => if camelModelConfig.populate_by_name then lookupKey payload fname else none

/-- Decidable equality of validation results, so that concrete runs of the
validators can be checked by decide. -/
instance exceptDecEq {e a : Type} [DecidableEq e] [DecidableEq a] :
    DecidableEq (Except e a) := fun x y =>
  match x, y with
  | .ok v, .ok w =>
    if h : v = w then isTrue (by rw [h]) else isFalse (by intro hc; cases hc; exact h rfl)
  | .error v, .error w =>
    if h : v = w then isTrue (by rw [h]) else isFalse (by intro hc; cases hc; exact h rfl)
  | .ok _, .error _ => isFalse (by intro hc; cases hc)
  | .error _, .ok _ => isFalse (by intro hc; cases hc)

/-! ## Shared concrete payloads -/

/-- A minimal valid cash-flow payload (zero strategy). -/
def cfZeroRaw : CashFlowRaw := ⟨"zero", none, none, none⟩

/-- The validated record of cfZeroRaw. -/
def cfZeroRec : CashFlowInput := ⟨.zero, none, none, none⟩

/-- A minimal valid return-model payload (statistical, global source). -/
def rmStatRaw : ReturnModelRaw :=
  ⟨"statistical", none, none, none, none, some "global", none, none, none, none⟩

/-- The validated record of rmStatRaw. -/
def rmStatRec : ReturnModelInput :=
  ⟨.statistical, none, none, none, none, some "global", none, none, none, none⟩

/-! ## Helper lemmas -/

/-- hasDuplicate is the boolean complement of Nodup. -/
theorem hasDuplicate_eq_true_iff (l : List Int) : hasDuplicate l = true ↔ ¬ l.Nodup := by
  induction l with
  | nil => simp [hasDuplicate]
  | cons x xs ih =>
    simp only [hasDuplicate, List.nodup_cons, Bool.or_eq_true, List.any_eq_true,
      decide_eq_true_eq, ih, not_and_or, not_not]
    constructor
    · rintro (⟨y, hy, rfl⟩ | h)
      · exact Or.inl hy
      · exact Or.inr h
    · rintro (h | h)
      · exact Or.inl ⟨x, h, rfl⟩
      · exact Or.inr h

/-- The canonical value string of a Strategy member passes through the
snake_case normalizer unchanged and coerces back onto the member. -/
theorem strategyOfValue_roundtrip (s : Strategy) :
    Strategy.ofValue (to_snake s.value) = some s := by
  cases s <;> decide

/-- A cash-flow payload whose strategy token is a canonical member value and
whose months field honours the ge=0 bound has no field-level errors. -/
theorem cashFlowFieldErrors_value (s : Strategy) (co wd : Option Rat) (mo : Option Int)
    (hmo : ∀ m, mo = some m → 0 ≤ m) :
    cashFlowFieldErrors ⟨s.value, co, wd, mo⟩ = [] := by
  cases mo with
  | none => simp [cashFlowFieldErrors, strategyOfValue_roundtrip]
  | some m =>
    have h : ¬ (m < 0) := not_lt.mpr (hmo m rfl)
    simp [cashFlowFieldErrors, strategyOfValue_roundtrip, h]

/-- On a field-error-free payload with a canonical strategy token, full
validation is exactly the model validator with the singleton error wrapper. -/
theorem validateCashFlow_value (s : Strategy) (co wd : Option Rat) (mo : Option Int)
    (hmo : ∀ m, mo = some m → 0 ≤ m) :
    validateCashFlow ⟨s.value, co, wd, mo⟩ =
      (cashFlowModelValidator ⟨s, co, wd, mo⟩).mapError (fun e => [e]) := by
  have hfe := cashFlowFieldErrors_value s co wd mo hmo
  simp [validateCashFlow, strategyOfValue_roundtrip, hfe]

/-- The canonical value string of a ModelType member passes through the
snake_case normalizer unchanged and coerces back onto the member. -/
theorem modelTypeOfValue_roundtrip (mt : ModelType) :
    ModelType.ofValue (to_snake mt.value) = some mt := by
  cases mt <;> decide

/-- Injecting the bootstrap defaults never changes the discriminator. -/
theorem applyBootstrapDefaults_model_type (m : ReturnModelInput) :
    (applyBootstrapDefaults m).model_type = m.model_type := by
  unfold applyBootstrapDefaults
  split <;> rfl

/-- A return-model payload whose model_type token is a canonical member value
and whose constrained fields honour ge=0 and ge=1 has no field-level
errors. -/
theorem returnModelFieldErrors_value (mt : ModelType) (ner nsd rer rsd : Option Rat)
    (src : Option String) (sd ed : Option PyDate) (bs : Option Int) (ci : Option Bool)
    (hnsd : ∀ d, nsd = some d → 0 ≤ d) (hrsd : ∀ d, rsd = some d → 0 ≤ d)
    (hbs : ∀ b, bs = some b → 1 ≤ b) :
    returnModelFieldErrors ⟨mt.value, ner, nsd, rer, rsd, src, sd, ed, bs, ci⟩ = [] := by
  cases nsd with
  | none =>
    cases rsd with
    | none =>
      cases bs with
      | none => simp [returnModelFieldErrors, modelTypeOfValue_roundtrip]
      | some b =>
        simp [returnModelFieldErrors, modelTypeOfValue_roundtrip, not_lt.mpr (hbs b rfl)]
    | some d2 =>
      cases bs with
      | none =>
        simp [returnModelFieldErrors, modelTypeOfValue_roundtrip, not_lt.mpr (hrsd d2 rfl)]
      | some b =>
        simp [returnModelFieldErrors, modelTypeOfValue_roundtrip, not_lt.mpr (hrsd d2 rfl),
          not_lt.mpr (hbs b rfl)]
  | some d1 =>
    cases rsd with
    | none =>
      cases bs with
      | none =>
        simp [returnModelFieldErrors, modelTypeOfValue_roundtrip, not_lt.mpr (hnsd d1 rfl)]
      | some b =>
        simp [returnModelFieldErrors, modelTypeOfValue_roundtrip, not_lt.mpr (hnsd d1 rfl),
          not_lt.mpr (hbs b rfl)]
    | some d2 =>
      cases bs with
      | none =>
        simp [returnModelFieldErrors, modelTypeOfValue_roundtrip, not_lt.mpr (hnsd d1 rfl),
          not_lt.mpr (hrsd d2 rfl)]
      | some b =>
        simp [returnModelFieldErrors, modelTypeOfValue_roundtrip, not_lt.mpr (hnsd d1 rfl),
          not_lt.mpr (hrsd d2 rfl), not_lt.mpr (hbs b rfl)]

/-- On a field-error-free payload with a canonical model_type token, full
validation is exactly the model validator (on the record with the snake_cased
source) with the singleton error wrapper. -/
theorem validateReturnModel_value (mt : ModelType) (ner nsd rer rsd : Option Rat)
    (src : Option String) (sd ed : Option PyDate) (bs : Option Int) (ci : Option Bool)
    (hfe : returnModelFieldErrors ⟨mt.value, ner, nsd, rer, rsd, src, sd, ed, bs, ci⟩ = []) :
    validateReturnModel ⟨mt.value, ner, nsd, rer, rsd, src, sd, ed, bs, ci⟩ =
      (returnModelModelValidator
        ⟨mt, ner, nsd, rer, rsd, src.map to_snake, sd, ed, bs, ci⟩).mapError
        (fun e => [e]) := by
  simp [validateReturnModel, modelTypeOfValue_roundtrip, hfe, ReturnModelRaw.toInput]

/-- A bootstrap payload with a source token and no other field present
validates, injecting both defaults. -/
theorem vrm_bootstrap_none (src : String) (ci : Option Bool) :
    validateReturnModel ⟨"bootstrap", none, none, none, none, some src, none, none, none, ci⟩ =
      .ok ⟨ModelType.bootstrap, none, none, none, none, some (to_snake src), none, none,
           some 1, some (ci.getD true)⟩ := rfl

/-- A bootstrap payload with a source token and a block size honouring ge=1
validates, keeping the supplied block size. -/
theorem vrm_bootstrap_some (src : String) (b : Int) (ci : Option Bool) (hb : ¬ (b < 1)) :
    validateReturnModel ⟨"bootstrap", none, none, none, none, some src, none, none, some b, ci⟩ =
      .ok ⟨ModelType.bootstrap, none, none, none, none, some (to_snake src), none, none,
           some b, some (ci.getD true)⟩ := by
  have hfe : returnModelFieldErrors
      ⟨"bootstrap", none, none, none, none, some src, none, none, some b, ci⟩ = [] := by
    show (if b < 1 then [VError.rangeViolation "blockSize"] else []) = []
    rw [if_neg hb]
  have key : validateReturnModel
      ⟨"bootstrap", none, none, none, none, some src, none, none, some b, ci⟩ =
      if returnModelFieldErrors
          ⟨"bootstrap", none, none, none, none, some src, none, none, some b, ci⟩ = [] then
        (returnModelModelValidator
          ((⟨"bootstrap", none, none, none, none, some src, none, none, some b, ci⟩ :
            ReturnModelRaw).toInput ModelType.bootstrap)).mapError (fun e => [e])
      else .error (returnModelFieldErrors
        ⟨"bootstrap", none, none, none, none, some src, none, none, some b, ci⟩) := rfl
  rw [key, if_pos hfe]
  rfl

/-- A statistical payload with a source token and inverted dates fails with
the date-range error. -/
theorem vrm_statistical_dates (src : String) (d1 d2 : PyDate) (h : PyDate.ltB d2 d1 = true) :
    validateReturnModel
        ⟨"statistical", none, none, none, none, some src, some d1, some d2, none, none⟩ =
      .error [VError.dateRangeInverted] := by
  have k2 : returnModelModelValidator
      ((⟨"statistical", none, none, none, none, some src, some d1, some d2, none, none⟩ :
        ReturnModelRaw).toInput ModelType.statistical) =
      if PyDate.ltB d2 d1 then Except.error VError.dateRangeInverted
      else Except.ok ⟨ModelType.statistical, none, none, none, none, some (to_snake src),
                      some d1, some d2, none, none⟩ := rfl
  have key : validateReturnModel
      ⟨"statistical", none, none, none, none, some src, some d1, some d2, none, none⟩ =
      (returnModelModelValidator
        ((⟨"statistical", none, none, none, none, some src, some d1, some d2, none, none⟩ :
          ReturnModelRaw).toInput ModelType.statistical)).mapError (fun e => [e]) := rfl
  rw [key, k2, if_pos h]
  rfl

/-- A bootstrap payload with a source token and inverted dates fails with the
date-range error. -/
theorem vrm_bootstrap_dates (src : String) (d1 d2 : PyDate) (h : PyDate.ltB d2 d1 = true) :
    validateReturnModel
        ⟨"bootstrap", none, none, none, none, some src, some d1, some d2, none, none⟩ =
      .error [VError.dateRangeInverted] := by
  have k2 : returnModelModelValidator
      ((⟨"bootstrap", none, none, none, none, some src, some d1, some d2, none, none⟩ :
        ReturnModelRaw).toInput ModelType.bootstrap) =
      if PyDate.ltB d2 d1 then Except.error VError.dateRangeInverted
      else Except.ok ⟨ModelType.bootstrap, none, none, none, none, some (to_snake src),
                      some d1, some d2, some 1, some true⟩ := rfl
  have key : validateReturnModel
      ⟨"bootstrap", none, none, none, none, some src, some d1, some d2, none, none⟩ =
      (returnModelModelValidator
        ((⟨"bootstrap", none, none, none, none, some src, some d1, some d2, none, none⟩ :
          ReturnModelRaw).toInput ModelType.bootstrap)).mapError (fun e => [e]) := rfl
  rw [key, k2, if_pos h]
  rfl

/-! ## Claims -/

/-- C1 (corrected): when every field-level check of SimulationConfig passes
(percentiles, nested models, scalar ranges, balance signs), a list-shaped
initialBalances whose length differs from numPaths fails with
BalanceCountMismatch.  The instances of the claim are wrong: numPaths 5 and
numPaths 3 are below the allowed range, so the cited payloads fail with a
RangeViolation on numPaths instead (see the counterexample). -/
theorem C1_theorem (raw : SimulationRaw) (ps : List Int) (rm : ReturnModelInput)
    (cf : CashFlowInput) (l : List Rat)
    (hp : validatePercentiles raw.percentiles = .ok ps)
    (hrm : validateReturnModel raw.return_model = .ok rm)
    (hcf : validateCashFlow raw.cash_flow_strategy = .ok cf)
    (hf : simFieldErrors raw = [])
    (hb : raw.initial_balances = Sum.inr l)
    (hl : (l.length : Int) ≠ raw.num_paths) :
    validateSimulationConfig raw = .error [VError.balanceCountMismatch] := by
  simp only [validateSimulationConfig, hp, hrm, hcf, hf, hb]
  simp [hl]

/-- Witness for C1: a payload valid in every field, with a 3-element balance
list against numPaths 100. -/
theorem C1_witness :
    validateSimulationConfig ⟨100, 100, .inr [1, 2, 3], [50], rmStatRaw, cfZeroRaw⟩ =
      .error [VError.balanceCountMismatch] :=
  C1_theorem ⟨100, 100, .inr [1, 2, 3], [50], rmStatRaw, cfZeroRaw⟩ [50] rmStatRec cfZeroRec
    [1, 2, 3] (by decide) (by decide) (by decide) (by decide) rfl (by decide)

/-- Counterexample for C1: with numPaths 5 the payload of the claim fails with
a RangeViolation on numPaths, not BalanceCountMismatch (the length check never
runs), and with numPaths 3 it fails the same way instead of validating. -/
theorem C1_counterexample :
    validateSimulationConfig ⟨100, 5, .inr [1, 2, 3], [50], rmStatRaw, cfZeroRaw⟩ =
      .error [VError.rangeViolation "numPaths"] ∧
    validateSimulationConfig ⟨100, 3, .inr [1, 2, 3], [50], rmStatRaw, cfZeroRaw⟩ =
      .error [VError.rangeViolation "numPaths"] :=
  ⟨by decide, by decide⟩

/-- C2 (corrected): for every cash-flow record (any strategy) and every
return-model record (any model type), when at least one required field is
absent, validation fails with a single error naming exactly the absent
required fields together (camelCased, with the discriminator value);
forbidden-present fields are not part of that error.  Only when no required
field is absent does validation fail with the single error naming all
forbidden-present fields together.  For the return-model validator the field
sets are evaluated on the record after bootstrap default injection, as in the
code. -/
theorem C2_theorem :
    (∀ (s : Strategy) (co wd : Option Rat) (mo : Option Int),
      (∀ m, mo = some m → 0 ≤ m) →
      ((cashFlowRequired s).filter (CashFlowInput.fieldIsNone ⟨s, co, wd, mo⟩) ≠ [] →
        validateCashFlow ⟨s.value, co, wd, mo⟩ =
          .error [VError.missingRequired (to_camel s.value)
            (((cashFlowRequired s).filter
              (CashFlowInput.fieldIsNone ⟨s, co, wd, mo⟩)).map to_camel)]) ∧
      ((cashFlowRequired s).filter (CashFlowInput.fieldIsNone ⟨s, co, wd, mo⟩) = [] →
       (cashFlowUnused s).filter
          (fun f => !(CashFlowInput.fieldIsNone ⟨s, co, wd, mo⟩ f)) ≠ [] →
        validateCashFlow ⟨s.value, co, wd, mo⟩ =
          .error [VError.forbiddenPresent (to_camel s.value)
            (((cashFlowUnused s).filter
              (fun f => !(CashFlowInput.fieldIsNone ⟨s, co, wd, mo⟩ f))).map to_camel)])) ∧
    (∀ (mt : ModelType) (ner nsd rer rsd : Option Rat) (src : Option String)
       (sd ed : Option PyDate) (bs : Option Int) (ci : Option Bool),
      (∀ d, nsd = some d → 0 ≤ d) → (∀ d, rsd = some d → 0 ≤ d) →
      (∀ b, bs = some b → 1 ≤ b) →
      ((returnModelRequired mt).filter
          (ReturnModelInput.fieldIsNone (applyBootstrapDefaults
            ⟨mt, ner, nsd, rer, rsd, src.map to_snake, sd, ed, bs, ci⟩)) ≠ [] →
        validateReturnModel ⟨mt.value, ner, nsd, rer, rsd, src, sd, ed, bs, ci⟩ =
          .error [VError.missingRequired mt.value
            (((returnModelRequired mt).filter
              (ReturnModelInput.fieldIsNone (applyBootstrapDefaults
                ⟨mt, ner, nsd, rer, rsd, src.map to_snake, sd, ed, bs, ci⟩))).map to_camel)]) ∧
      ((returnModelRequired mt).filter
          (ReturnModelInput.fieldIsNone (applyBootstrapDefaults
            ⟨mt, ner, nsd, rer, rsd, src.map to_snake, sd, ed, bs, ci⟩)) = [] →
       (returnModelUnused mt).filter
          (fun f => !(ReturnModelInput.fieldIsNone (applyBootstrapDefaults
            ⟨mt, ner, nsd, rer, rsd, src.map to_snake, sd, ed, bs, ci⟩) f)) ≠ [] →
        validateReturnModel ⟨mt.value, ner, nsd, rer, rsd, src, sd, ed, bs, ci⟩ =
          .error [VError.forbiddenPresent mt.value
            (((returnModelUnused mt).filter
              (fun f => !(ReturnModelInput.fieldIsNone (applyBootstrapDefaults
                ⟨mt, ner, nsd, rer, rsd, src.map to_snake, sd, ed, bs, ci⟩) f))).map
              to_camel)])) ∧
    validateReturnModel ⟨"bootstrap", some 1, none, none, none, none, none, none, none, none⟩ =
      .error [VError.missingRequired "bootstrap" ["returnsSource"]] := by
  refine ⟨fun s co wd mo hmo => ⟨fun hmiss => ?_, fun hmiss hextra => ?_⟩,
    fun mt ner nsd rer rsd src sd ed bs ci hnsd hrsd hbs =>
      ⟨fun hmiss => ?_, fun hmiss hextra => ?_⟩,
    by decide⟩
  · rw [validateCashFlow_value s co wd mo hmo]
    rcases hm : (cashFlowRequired s).filter (CashFlowInput.fieldIsNone ⟨s, co, wd, mo⟩)
      with _ | ⟨a, t⟩
    · exact absurd hm hmiss
    · simp [cashFlowModelValidator, hm, Except.mapError]
  · rw [validateCashFlow_value s co wd mo hmo]
    rcases he : (cashFlowUnused s).filter
        (fun f => !(CashFlowInput.fieldIsNone ⟨s, co, wd, mo⟩ f)) with _ | ⟨a, t⟩
    · exact absurd he hextra
    · simp [cashFlowModelValidator, hmiss, he, Except.mapError]
  · rw [validateReturnModel_value mt ner nsd rer rsd src sd ed bs ci
      (returnModelFieldErrors_value mt ner nsd rer rsd src sd ed bs ci hnsd hrsd hbs)]
    rcases hm : (returnModelRequired mt).filter
        (ReturnModelInput.fieldIsNone (applyBootstrapDefaults
          ⟨mt, ner, nsd, rer, rsd, src.map to_snake, sd, ed, bs, ci⟩)) with _ | ⟨a, t⟩
    · exact absurd hm hmiss
    · simp [returnModelModelValidator, applyBootstrapDefaults_model_type, hm, Except.mapError]
  · rw [validateReturnModel_value mt ner nsd rer rsd src sd ed bs ci
      (returnModelFieldErrors_value mt ner nsd rer rsd src sd ed bs ci hnsd hrsd hbs)]
    rcases he : (returnModelUnused mt).filter
        (fun f => !(ReturnModelInput.fieldIsNone (applyBootstrapDefaults
          ⟨mt, ner, nsd, rer, rsd, src.map to_snake, sd, ed, bs, ci⟩) f)) with _ | ⟨a, t⟩
    · exact absurd he hextra
    · simp [returnModelModelValidator, applyBootstrapDefaults_model_type, hmiss, he,
        Except.mapError]

/-- Witness for C2: a fixed-strategy payload missing its required
contribution fails naming exactly contribution; a bootstrap payload with a
forbidden field present and the source absent fails naming only
returnsSource; a statistical payload with the source present and a forbidden
field present fails naming that forbidden field. -/
theorem C2_witness :
    validateCashFlow ⟨Strategy.fixed.value, none, some 400, none⟩ =
      .error [VError.missingRequired (to_camel Strategy.fixed.value)
        (((cashFlowRequired Strategy.fixed).filter
          (CashFlowInput.fieldIsNone ⟨Strategy.fixed, none, some 400, none⟩)).map to_camel)] ∧
    validateReturnModel ⟨ModelType.bootstrap.value, some 1, none, none, none,
        none, none, none, none, none⟩ =
      .error [VError.missingRequired "bootstrap" ["returnsSource"]] ∧
    validateReturnModel ⟨ModelType.statistical.value, some 1, none, none, none,
        some "global", none, none, none, none⟩ =
      .error [VError.forbiddenPresent "statistical" ["nominalExpectedReturn"]] :=
  ⟨(C2_theorem.1 Strategy.fixed none (some 400) none (fun _ h => nomatch h)).1 (by decide),
   (C2_theorem.2.1 ModelType.bootstrap (some 1) none none none none none none none none
      (fun _ h => nomatch h) (fun _ h => nomatch h) (fun _ h => nomatch h)).1 (by decide),
   (C2_theorem.2.1 ModelType.statistical (some 1) none none none (some "global")
      none none none none
      (fun _ h => nomatch h) (fun _ h => nomatch h) (fun _ h => nomatch h)).2
      (by decide) (by decide)⟩

/-- Counterexample for C2: with strategy fixed, contribution absent (required)
and withdrawal present (forbidden), the single raised error names only the
missing contribution; the forbidden withdrawal appears in no error, so no
error carries both field-name lists. -/
theorem C2_counterexample :
    validateCashFlow ⟨"fixed", none, some 400, none⟩ =
      .error [VError.missingRequired "fixed" ["contribution"]] := by decide

/-- C3 (corrected): the strategy and modelType tokens are normalized by
snake_case conversion and then matched exactly against the member values:
any token whose snake_case form matches no member fails with UnknownVariant,
while camelCase, PascalCase and all-uppercase spellings of the members
normalize to the canonical member.  Matching is not fully case-insensitive
(see the counterexample). -/
theorem C3_theorem :
    (∀ tok : String, Strategy.ofValue (to_snake tok) = none →
      validateCashFlow ⟨tok, none, none, none⟩ =
        .error [VError.unknownVariant "strategy" (to_snake tok)]) ∧
    (∀ tok : String, ModelType.ofValue (to_snake tok) = none →
      validateReturnModel ⟨tok, none, none, none, none, none, none, none, none, none⟩ =
        .error [VError.unknownVariant "modelType" (to_snake tok)]) ∧
    validateCashFlow ⟨"fixedLifecycle", some 500, some (-400), some 32⟩ =
      .ok ⟨Strategy.fixed_lifecycle, some 500, some (-400), some 32⟩ ∧
    validateCashFlow ⟨"FixedLifecycle", some 500, some (-400), some 32⟩ =
      .ok ⟨Strategy.fixed_lifecycle, some 500, some (-400), some 32⟩ ∧
    validateCashFlow ⟨"ZERO", none, none, none⟩ = .ok ⟨Strategy.zero, none, none, none⟩ ∧
    validateReturnModel ⟨"Bootstrap", none, none, none, none, some "global",
        none, none, none, none⟩ =
      .ok ⟨ModelType.bootstrap, none, none, none, none, some "global",
           none, none, some 1, some true⟩ := by
  refine ⟨fun tok h => ?_, fun tok h => ?_, by decide, by decide, by decide, by decide⟩
  · simp [validateCashFlow, cashFlowFieldErrors, h]
  · simp [validateReturnModel, returnModelFieldErrors, h]

/-- Witness for C3: an unknown token is rejected with UnknownVariant. -/
theorem C3_witness :
    validateCashFlow ⟨"foo", none, none, none⟩ =
      .error [VError.unknownVariant "strategy" (to_snake "foo")] :=
  C3_theorem.1 "foo" (by decide)

/-- Counterexample for C3: fixedlifecycle is a casing of the member spelling
fixedLifecycle (identical after lowercasing), yet it is rejected with
UnknownVariant, so the token is not matched case-insensitively. -/
theorem C3_counterexample :
    lowerStr "fixedlifecycle" = lowerStr "fixedLifecycle" ∧
    validateCashFlow ⟨"fixedlifecycle", some 500, some (-400), some 32⟩ =
      .error [VError.unknownVariant "strategy" "fixedlifecycle"] :=
  ⟨by decide, by decide⟩

/-- C4 (corrected): a returnsSource token is never rejected: a bootstrap
payload with any source token validates, and the stored value is the
snake_case normalization of the token (which lowercases but also inserts
underscores at case boundaries).  For the all-uppercase token VFINX this
coincides with plain lowercasing, as the claim states. -/
theorem C4_theorem :
    (∀ src : String,
      validateReturnModel ⟨"bootstrap", none, none, none, none, some src,
          none, none, none, none⟩ =
        .ok ⟨ModelType.bootstrap, none, none, none, none, some (to_snake src),
             none, none, some 1, some true⟩) ∧
    to_snake "VFINX" = "vfinx" ∧
    validateReturnModel ⟨"bootstrap", none, none, none, none, some "VFINX",
        none, none, none, none⟩ =
      .ok ⟨ModelType.bootstrap, none, none, none, none, some "vfinx",
           none, none, some 1, some true⟩ :=
  ⟨fun src => vrm_bootstrap_none src none, by decide, by decide⟩

/-- Counterexample for C4: the token aB matches neither enum member
case-insensitively, is accepted, but is stored as a_b, which is not the
lowercasing ab of the token. -/
theorem C4_counterexample :
    validateReturnModel ⟨"bootstrap", none, none, none, none, some "aB",
        none, none, none, none⟩ =
      .ok ⟨ModelType.bootstrap, none, none, none, none, some "a_b",
           none, none, some 1, some true⟩ ∧
    lowerStr "aB" = "ab" ∧ ("a_b" : String) ≠ "ab" ∧
    lowerStr "aB" ≠ "global" ∧ lowerStr "aB" ≠ "usa" :=
  ⟨by decide, by decide, by decide, by decide, by decide⟩

/-- C5 (corrected): for the statistical and bootstrap model types, a payload
passing the variant field-set checks with both dates present and startDate
strictly after endDate fails with DateRangeInverted.  For the parametric
type the claim fails: both date fields are forbidden, and the forbidden-field
error is raised before the date comparison (see the counterexample). -/
theorem C5_theorem :
    (∀ (src : String) (d1 d2 : PyDate), PyDate.ltB d2 d1 = true →
      validateReturnModel ⟨"statistical", none, none, none, none, some src,
          some d1, some d2, none, none⟩ =
        .error [VError.dateRangeInverted]) ∧
    (∀ (src : String) (d1 d2 : PyDate), PyDate.ltB d2 d1 = true →
      validateReturnModel ⟨"bootstrap", none, none, none, none, some src,
          some d1, some d2, none, none⟩ =
        .error [VError.dateRangeInverted]) :=
  ⟨vrm_statistical_dates, vrm_bootstrap_dates⟩

/-- Witness for C5: inverted dates on a statistical and on a bootstrap
payload. -/
theorem C5_witness :
    validateReturnModel ⟨"statistical", none, none, none, none, some "global",
        some ⟨2004, 9, 1⟩, some ⟨2003, 12, 1⟩, none, none⟩ =
      .error [VError.dateRangeInverted] ∧
    validateReturnModel ⟨"bootstrap", none, none, none, none, some "global",
        some ⟨2004, 9, 1⟩, some ⟨2003, 12, 1⟩, none, none⟩ =
      .error [VError.dateRangeInverted] :=
  ⟨C5_theorem.1 "global" ⟨2004, 9, 1⟩ ⟨2003, 12, 1⟩ (by decide),
   C5_theorem.2 "global" ⟨2004, 9, 1⟩ ⟨2003, 12, 1⟩ (by decide)⟩

/-- Counterexample for C5: a parametric payload with inverted dates fails with
the forbidden-field error naming startDate and endDate, not with
DateRangeInverted, although startDate is strictly after endDate. -/
theorem C5_counterexample :
    validateReturnModel ⟨"parametric", some 7, some 15, some 5, some 10, none,
        some ⟨2004, 9, 1⟩, some ⟨2003, 12, 1⟩, none, none⟩ =
      .error [VError.forbiddenPresent "parametric" ["startDate", "endDate"]] ∧
    PyDate.ltB ⟨2003, 12, 1⟩ ⟨2004, 9, 1⟩ = true :=
  ⟨by decide, by decide⟩

/-- C6 (confirmed): for a bootstrap return model, an absent blockSize defaults
to 1 and an absent circular defaults to true (supplied values are kept), the
defaults are injected before the required and forbidden checks so the
validated record carries them, omitting returnsSource fails, and the
end-to-end payload with modelType bootstrap, returnsSource global and the
string circular false validates with blockSize 1 and circular false. -/
theorem C6_theorem :
    (∀ (src : String) (bs : Option Int) (ci : Option Bool),
      (∀ b, bs = some b → 1 ≤ b) →
      validateReturnModel ⟨"bootstrap", none, none, none, none, some src, none, none, bs, ci⟩ =
        .ok ⟨ModelType.bootstrap, none, none, none, none, some (to_snake src), none, none,
             some (bs.getD 1), some (ci.getD true)⟩) ∧
    validateReturnModel ⟨"bootstrap", none, none, none, none, none, none, none, none, none⟩ =
      .error [VError.missingRequired "bootstrap" ["returnsSource"]] ∧
    coerceBool "circular" (JVal.jstr "false") = .ok false ∧
    validateReturnModelJson ⟨.jstr "bootstrap", none, none, none, none, some (.jstr "global"),
        none, none, none, some (.jstr "false")⟩ =
      .ok ⟨ModelType.bootstrap, none, none, none, none, some "global", none, none,
           some 1, some false⟩ := by
  refine ⟨fun src bs ci hbs => ?_, by decide, by decide, by decide⟩
  cases bs with
  | none => exact vrm_bootstrap_none src ci
  | some b => exact vrm_bootstrap_some src b ci (not_lt.mpr (hbs b rfl))

/-- Witness for C6: a bootstrap payload with a supplied block size and
circular flag keeps both; the defaults only fill absent fields. -/
theorem C6_witness :
    validateReturnModel ⟨"bootstrap", none, none, none, none, some "global", none, none,
        some 17, some false⟩ =
      .ok ⟨ModelType.bootstrap, none, none, none, none, some (to_snake "global"), none, none,
           some ((some (17 : Int)).getD 1), some ((some false).getD true)⟩ :=
  C6_theorem.1 "global" (some 17) (some false) (fun b h => by cases h; decide)

/-- C7 (confirmed): percentile validation fails with PercentileOutOfRange when
some element is not strictly between 0 and 100, fails with DuplicatePercentile
when the elements are in range but repeat, and on success stores the
ascending-sorted permutation of the input; in particular the full config with
percentiles 99, 1, 50 validates and stores 1, 50, 99. -/
theorem C7_theorem :
    (∀ l : List Int, (∃ p, p ∈ l ∧ ¬(0 < p ∧ p < 100)) →
      validatePercentiles l = .error VError.percentileOutOfRange) ∧
    (∀ l : List Int, (∀ p, p ∈ l → 0 < p ∧ p < 100) → ¬ l.Nodup →
      validatePercentiles l = .error VError.duplicatePercentile) ∧
    (∀ (l r : List Int), validatePercentiles l = .ok r →
      List.Sorted (· ≤ ·) r ∧ List.Perm r l) ∧
    validateSimulationConfig ⟨100, 100, .inl 1000, [99, 1, 50], rmStatRaw, cfZeroRaw⟩ =
      .ok ⟨100, 100, .inl 1000, [1, 50, 99], rmStatRec, cfZeroRec⟩ := by
  refine ⟨fun l hex => ?_, fun l hall hdup => ?_, fun l r h => ?_, by decide⟩
  · obtain ⟨p, hmem, hnot⟩ := hex
    have hfalse : l.all (fun p => decide (0 < p) && decide (p < 100)) = false := by
      cases hA : l.all (fun p => decide (0 < p) && decide (p < 100)) with
      | false => rfl
      | true => exact absurd (by simpa using List.all_eq_true.mp hA p hmem) hnot
    simp [validatePercentiles, hfalse]
  · have h1 : l.all (fun p => decide (0 < p) && decide (p < 100)) = true :=
      List.all_eq_true.mpr (fun p hp => by simpa using hall p hp)
    have h2 : hasDuplicate l = true := (hasDuplicate_eq_true_iff l).mpr hdup
    simp [validatePercentiles, h1, h2]
  · unfold validatePercentiles at h
    split at h
    · split at h
      · exact absurd h (by simp)
      · rw [Except.ok.injEq] at h
        subst h
        exact ⟨List.sorted_insertionSort (· ≤ ·) l, List.perm_insertionSort (· ≤ ·) l⟩
    · exact absurd h (by simp)

/-- Witness for C7: an out-of-range set, the duplicate set of the spec, and
the sortedness and permutation facts at 99, 1, 50. -/
theorem C7_witness :
    validatePercentiles [0, 50] = .error VError.percentileOutOfRange ∧
    validatePercentiles [50, 10, 90, 10] = .error VError.duplicatePercentile ∧
    (List.Sorted (· ≤ ·) (List.insertionSort (· ≤ ·) ([99, 1, 50] : List Int)) ∧
      List.Perm (List.insertionSort (· ≤ ·) ([99, 1, 50] : List Int)) [99, 1, 50]) :=
  ⟨C7_theorem.1 [0, 50] ⟨0, by decide, by decide⟩,
   C7_theorem.2.1 [50, 10, 90, 10] (by decide) (by decide),
   C7_theorem.2.2.1 [99, 1, 50] (List.insertionSort (· ≤ ·) ([99, 1, 50] : List Int)) rfl⟩

/-- C8 (confirmed): under the CamelModel configuration a field supplied under
its public camelCase alias and the same field supplied under its internal
snake_case name are both accepted and extract to the same value, so either
spelling alone suffices; illustrated on months_to_retirement. -/
theorem C8_theorem :
    (∀ (f : String) (v : JVal),
      extractField [(to_camel f, v)] f = some v ∧
      extractField [(f, v)] f = some v ∧
      extractField [(to_camel f, v)] f = extractField [(f, v)] f) ∧
    extractField [("monthsToRetirement", JVal.jnum 36)] "months_to_retirement" =
      extractField [("months_to_retirement", JVal.jnum 36)] "months_to_retirement" ∧
    to_camel "months_to_retirement" = "monthsToRetirement" := by
  refine ⟨fun f v => ?_, by decide, by decide⟩
  have h1 : extractField [(to_camel f, v)] f = some v := by
    simp [extractField, lookupKey]
  have h2 : extractField [(f, v)] f = some v := by
    by_cases hc : f = to_camel f
    · simp [extractField, lookupKey, ← hc]
    · simp [extractField, lookupKey, hc, camelModelConfig, defaultPydanticConfig]
  exact ⟨h1, h2, h1.trans h2.symm⟩

/-- C9 (corrected): the shared CamelModel configuration sets only the camel
alias generator and populate_by_name; frozen and validate_assignment keep the
pydantic defaults (off), so validated configuration objects are ordinary
mutable models — indeed the bootstrap model validator itself reassigns
block_size and circular on the already-constructed record. -/
theorem C9_theorem :
    camelModelConfig = ⟨true, true, false, false⟩ ∧
    camelModelConfig.frozen = defaultPydanticConfig.frozen ∧
    returnModelModelValidator
        ⟨.bootstrap, none, none, none, none, some "global", none, none, none, none⟩ =
      .ok ⟨.bootstrap, none, none, none, none, some "global", none, none,
           some 1, some true⟩ :=
  ⟨rfl, rfl, by decide⟩

/-- Counterexample for C9: the model configuration inherited by every
validated object does not set frozen, refuting that the objects are
frozen/immutable after construction. -/
theorem C9_counterexample : camelModelConfig.frozen = false := rfl

/-- C10 (confirmed): at the public interface a bootstrap payload may supply
blockSize as the decimal string 17.0; lax coercion parses it as the integral
rational 17 and the validated record stores the integer 17. -/
theorem C10_theorem :
    parseDecimal? "17.0" = some 17 ∧
    coerceInt "blockSize" (JVal.jstr "17.0") = .ok 17 ∧
    validateReturnModelJson ⟨.jstr "bootstrap", none, none, none, none,
        some (.jstr "VFINX"), none, none, some (.jstr "17.0"), none⟩ =
      .ok ⟨ModelType.bootstrap, none, none, none, none, some "vfinx", none, none,
           some 17, some true⟩ :=
  ⟨by decide, by decide, by decide⟩
